import Mathlib

/-!
Verification development for the ProDesign Fit orchestrator servers.

The repository contains four JavaScript files, each an iteration of the same
HTTP service: a legacy server (a simple /review plus a crawl-only /analyze),
version 2.1-ultrafast and 2.3-superfast (both in the main server file), and
version 2.2-with-screenshots.  The definitions below are shallow embeddings
of the request handlers and their helper functions: external effects
(browser navigation, screenshot rendering, storage upload, the scoring API
call) are represented by outcome fields in an environment record, and each
handler is translated as a pure function from that environment to the
response it produces, together with the externally visible effects.
-/

/-- JavaScript fallback for an optional integer field, as in
    aiResult?.overallScore || 72 : a missing value and the falsy value 0
    are both replaced by the default. -/
def jsOrInt : Option Int → Int → Int
  | some x, d => if x = 0 then d else x
  | none, d => d

/-- JavaScript fallback for an optional string field: a missing value and
    the falsy empty string are both replaced by the default. -/
def jsOrStr : Option String → String → String
  | some s, d => if s = "" then d else s
  | none, d => d

/-- JavaScript String.toLowerCase restricted to the characters we model. -/
def lowerStr (s : String) : String := ⟨s.data.map Char.toLower⟩

/-- Does the first list start with the second one? -/
def charsStart : List Char → List Char → Bool
  | _, [] => true
  | [], _ :: _ => false
  | c :: cs, p :: ps => c == p && charsStart cs ps

/-- Does the list contain the pattern as a contiguous run?  Models
    JavaScript String.includes over the character sequence. -/
def charsHas (pat : List Char) : List Char → Bool
  | [] => charsStart [] pat
  | c :: cs => charsStart (c :: cs) pat || charsHas pat cs

/-- JavaScript s.includes(pat). -/
def strHas (s pat : String) : Bool := charsHas pat.toList s.toList

/-- The hostname component of a URL, as produced by new URL(href).hostname
    for the absolute URLs the DOM yields. -/
def hostOf (s : String) : String :=
  (((s.splitOn "://").getD 1 s).splitOn "/").headD ""

/-- Word count used for the homepage case study: content.split on
    whitespace, counted. -/
def wordsOf (s : String) : Nat := (s.splitOn " ").length

/-- The four subscores returned by the scoring API. -/
structure Scores where
  uxThinking : Int
  clarity : Int
  storytelling : Int
  professionalism : Int
  deriving DecidableEq

/-- A recommendation entry; the category key is absent in some literals. -/
structure Rec where
  priority : String
  category : Option String
  text : String
  deriving DecidableEq

/-- One entry of a case study's sections array. -/
structure ReportSection where
  type : String
  name : String
  aiReview : String
  score : Option Int
  suggestions : Option (List String)
  deriving DecidableEq

/-- The screenshots object of a case study; each slot is null when no
    screenshot was captured or the upload failed. -/
structure Screenshots where
  desktopFull : Option String
  desktopFold : Option String
  mobileFull : Option String
  deriving DecidableEq

/-- One element of the caseStudies array of an analysis report.  Fields
    that some variants omit from the object literal are Options. -/
structure CaseStudy where
  url : String
  title : String
  wordCount : Option Nat
  score : Option Int
  scoresField : Option Scores
  screenshots : Screenshots
  sections : List ReportSection
  summary : String
  strengths : List String
  recommendations : List Rec
  deriving DecidableEq

/-- The data object of the /analyze JSON response.  overallScore and
    scores are Options because the 2.3 success path echoes the parsed
    scorer fields, which the parsed JSON may lack. -/
structure ReportData where
  portfolioUrl : String
  analysisVersion : String
  overallScore : Option Int
  scores : Option Scores
  summary : String
  strengths : List String
  weaknesses : List String
  interviewReadiness : String
  standoutFeature : Option String
  caseStudies : List CaseStudy
  topRecommendations : List Rec
  deriving DecidableEq

/-- The JSON object a successful scoring call parses to.  Every field is
    optional: the parsed body is arbitrary JSON. -/
structure AIResult where
  overallScore : Option Int
  scores : Option Scores
  summary : Option String
  strengths : Option (List String)
  weaknesses : Option (List String)
  interviewReadiness : Option String
  topRecommendations : Option (List Rec)
  deriving DecidableEq

/-- Outcome of one attempted call to the scoring API: no credential
    configured, request timeout, non-2xx status, unparsable body, a 2xx
    body whose text parses to the JSON value null, or a successfully
    parsed JSON object.  A 2xx body parsing to a non-null, non-object
    value behaves, under every member access the handlers perform, like
    an object with no fields (property access on a primitive yields
    undefined), so it is represented by parsed with every field absent;
    the null body needs its own constructor because member access on
    null throws. -/
inductive ScoreCallOutcome
  | noKey
  | timeout
  | nonOk (status : Nat)
  | badJson
  | parsedNull
  | parsed (r : AIResult)
  deriving DecidableEq

/-- callOpenAI (2.1 and 2.2 scorer): returns the parsed JSON on success
    and null on every failure (missing key, abort, non-ok status, parse
    error).  A 2xx body of literal null also comes back as null, because
    the function returns the result of the JSON parse directly. -/
def callOpenAI : ScoreCallOutcome → Option AIResult
  | .parsed r => some r
  | _ => none

/-- Number of HTTP calls to the scoring endpoint that the scorer performs
    for a given outcome.  The fetch is reached exactly once unless the
    missing-credential guard returns first; there is no retry loop. -/
def fetchAttempts : ScoreCallOutcome → Nat
  | .noKey => 0
  | _ => 1

/-- Static fallback subscores of the fast variants (2.2 defaults and both
    fastAIAnalysis fallbacks). -/
def fastScores : Scores := ⟨75, 72, 70, 78⟩

/-- fastAIAnalysis (2.3 scorer): on a missing key it returns a default
    object without a summary; on a 2xx response it returns the result of
    the JSON parse directly, which is null when the body is the literal
    null; on every other failure (abort, non-ok status, parse error) the
    fallback object with a summary. -/
def fastAIAnalysis : ScoreCallOutcome → Option AIResult
  | .noKey => some
      { overallScore := some 75, scores := some fastScores,
        summary := none, strengths := none, weaknesses := none,
        interviewReadiness := none, topRecommendations := none }
  | .parsedNull => none
  | .parsed r => some r
  | _ => some
      { overallScore := some 75, scores := some fastScores,
        summary := some "Portfolio analyzed with basic assessment.",
        strengths := none, weaknesses := none,
        interviewReadiness := none, topRecommendations := none }

/-- An extracted anchor: absolute href plus trimmed visible text. -/
structure Link where
  href : String
  text : String
  deriving DecidableEq

/-- The case-study link filter of 2.1, 2.2 and 2.3: lowercase the
    concatenation of href, a space and the anchor text, and test it for
    the three substrings. -/
def caseFilter21 (l : Link) : Bool :=
  let lower := lowerStr (l.href ++ " " ++ l.text)
  strHas lower "case" || strHas lower "work" || strHas lower "project"

/-- The legacy /analyze filter: a case-sensitive substring test on the
    href alone. -/
def legacyCaseFilter (href : String) : Bool :=
  strHas href "case" || strHas href "work" || strHas href "project"

/-- The keyword list actually used by the modern filter. -/
def kwList21 : List String := ["case", "work", "project"]

/-- Keyword classification over the lowercased href-plus-text
    concatenation, for an arbitrary keyword list. -/
def kwMatch (kws : List String) (l : Link) : Bool :=
  kws.any (fun k => strHas (lowerStr (l.href ++ " " ++ l.text)) k)

/-- The keyword set named by the specification. -/
def specCaseStudyKeywords : List String := ["case", "work", "project", "portfolio"]

/-- Classification exactly as the specification words it: substring match
    against the four keywords, case-insensitively, over the concatenation
    of href and anchor text. -/
def specIsCaseStudy (l : Link) : Bool := kwMatch specCaseStudyKeywords l

/-- Page-load wait conditions offered by the browser driver. -/
inductive WaitUntil
  | networkidle2
  | domcontentloaded
  | commit
  deriving DecidableEq

/-- One page.goto attempt: its wait condition and its timeout. -/
structure GotoAttempt where
  strategy : WaitUntil
  timeoutMs : Nat
  deriving DecidableEq

/-- The load ladder of the 2.1 handler: domcontentloaded at 20s, then a
    commit-only retry at 10s. -/
def loadAttempts_2_1 : List GotoAttempt :=
  [⟨.domcontentloaded, 20000⟩, ⟨.commit, 10000⟩]

/-- The 2.2 handler performs a single domcontentloaded attempt at 25s. -/
def loadAttempts_2_2 : List GotoAttempt := [⟨.domcontentloaded, 25000⟩]

/-- The 2.3 handler performs a single domcontentloaded attempt at 12s. -/
def loadAttempts_2_3 : List GotoAttempt := [⟨.domcontentloaded, 12000⟩]

/-- The legacy /analyze handler performs a single networkidle2 attempt;
    its goto passes no timeout option, so the driver default of 30s
    applies. -/
def loadAttempts_legacy : List GotoAttempt := [⟨.networkidle2, 30000⟩]

/-- The strategy ladder the specification describes: network-idle, then
    DOM-content-loaded, then first-byte-committed. -/
def specLoadLadder : List WaitUntil :=
  [.networkidle2, .domcontentloaded, .commit]

/-- Run the attempts in order, stopping at the first that succeeds.
    Returns whether any succeeded and the list of attempts actually
    made. -/
def attemptLoad (go : GotoAttempt → Bool) : List GotoAttempt → Bool × List GotoAttempt
  | [] => (false, [])
  | a :: rest =>
    if go a then (true, [a])
    else
      let r := attemptLoad go rest
      (r.1, a :: r.2)

/-- Externally visible side effects of a handler before it responds. -/
inductive Effect
  | browserLaunch
  | storageUpload
  | llmCall
  deriving DecidableEq

/-- The response of a modern /analyze handler together with its observable
    effects and the text actually handed to the scorer. -/
structure HandlerResult where
  status : Nat
  success : Bool
  data : Option ReportData
  errorMsg : Option String
  effects : List Effect
  llmInput : Option String
  deriving DecidableEq

/-- JavaScript truthiness test for the url field of the request body:
    false exactly when the field is absent or the empty string. -/
def urlFalsy : Option String → Bool
  | none => true
  | some s => s = ""

/-- The 400 response shared by the modern /analyze variants. -/
def resp400 : HandlerResult :=
  { status := 400, success := false, data := none,
    errorMsg := some "URL required", effects := [], llmInput := none }

/-- The 500 response of the modern /analyze catch blocks. -/
def resp500 (msg : String) (effs : List Effect) : HandlerResult :=
  { status := 500, success := false, data := none, errorMsg := some msg,
    effects := effs, llmInput := none }

/-- Effects contributed by one scorer invocation. -/
def scorerEffects (o : ScoreCallOutcome) : List Effect :=
  if fetchAttempts o = 0 then [] else [.llmCall]

/-- Environment of one 2.1-ultrafast /analyze request: the request body and
    the outcomes of each external interaction. -/
structure Env21 where
  url : Option String
  browserOk : Bool
  goSucceeds : GotoAttempt → Bool
  extractOk : Bool
  pageText : String
  pageLinks : List Link
  scorer : ScoreCallOutcome
  rand : Nat → ℚ

/-- Default subscores the 2.1 assembler substitutes when the scorer
    yields null. -/
def defaultScores21 : Scores := ⟨72, 70, 68, 75⟩

/-- Default subscores of a 2.1 case-study entry. -/
def defaultCsScores : Scores := ⟨70, 70, 70, 70⟩

/-- An all-null screenshots object. -/
def noShots : Screenshots := ⟨none, none, none⟩

/-- Default top recommendations of the 2.1 report. -/
def defaultRecs21 : List Rec :=
  [⟨"high", some "UX", "Add detailed case study documentation showing your design process"⟩,
   ⟨"medium", some "Clarity", "Include project outcomes and measurable results"⟩,
   ⟨"medium", some "Storytelling", "Show your design thinking step by step"⟩]

/-- A 2.1 case study built from a discovered link: its score is the base
    score plus the floor of ten times a fresh random sample minus five. -/
def mkCaseStudy21 (l : Link) (i : Nat) (base : Int) (ai : Option AIResult) (r : ℚ) : CaseStudy :=
  { url := l.href
    title := jsOrStr (some l.text) ("Case Study " ++ toString (i + 1))
    wordCount := some 0
    score := some (base + ⌊10 * r - 5⌋)
    scoresField := some ((ai.bind (·.scores)).getD defaultCsScores)
    screenshots := noShots
    sections := [⟨"overview", "Overview", "Case study detected.", some 70, some []⟩]
    summary := "Case study from " ++ hostOf l.href
    strengths := ((ai.bind (·.strengths)).map (fun xs => xs.take 2)).getD ["Content present"]
    recommendations := ((ai.bind (·.topRecommendations)).map (fun xs => xs.take 2)).getD [] }

/-- The synthetic homepage case study 2.1 substitutes when no case-study
    link was found; its score is the base score with no random offset. -/
def homepageCS21 (u content : String) (base : Int) (ai : Option AIResult) : CaseStudy :=
  { url := u
    title := "Portfolio Homepage"
    wordCount := some (wordsOf content)
    score := some base
    scoresField := some ((ai.bind (·.scores)).getD defaultCsScores)
    screenshots := noShots
    sections := [⟨"overview", "Overview", "Portfolio analyzed.", some 70, some []⟩]
    summary := "Portfolio homepage analysis"
    strengths := ((ai.bind (·.strengths)).map (fun xs => xs.take 2)).getD ["Portfolio accessible"]
    recommendations := ((ai.bind (·.topRecommendations)).map (fun xs => xs.take 2)).getD [] }

/-- The 2.1 report object: every field falls back to a fixed default when
    the scorer result lacks it. -/
def mkReport21 (u : String) (ai : Option AIResult) (cs : List CaseStudy) : ReportData :=
  { portfolioUrl := u
    analysisVersion := "2.1-ultrafast"
    overallScore := some (jsOrInt (ai.bind (·.overallScore)) 72)
    scores := some ((ai.bind (·.scores)).getD defaultScores21)
    summary := jsOrStr (ai.bind (·.summary))
      "Portfolio analyzed successfully. Consider adding more detailed case studies to showcase your UX process."
    strengths := (ai.bind (·.strengths)).getD
      ["Portfolio accessible", "Professional presentation", "Clear navigation"]
    weaknesses := (ai.bind (·.weaknesses)).getD
      ["Could benefit from more detailed case studies"]
    interviewReadiness := jsOrStr (ai.bind (·.interviewReadiness)) "Almost ready"
    standoutFeature := some "Professional portfolio design"
    caseStudies := cs
    topRecommendations := (ai.bind (·.topRecommendations)).getD defaultRecs21 }

/-- Whether any rung of the 2.1 load ladder succeeded. -/
def env21load (env : Env21) : Bool := (attemptLoad env.goSucceeds loadAttempts_2_1).1

/-- Text extracted by the 2.1 handler: empty on load or extraction
    failure. -/
def env21content (env : Env21) : String :=
  if env21load env && env.extractOk then env.pageText else ""

/-- Links extracted by the 2.1 handler: empty on load or extraction
    failure. -/
def env21links (env : Env21) : List Link :=
  if env21load env && env.extractOk then env.pageLinks else []

/-- The caseStudies array the 2.1 handler builds: entries for the first
    three matching links, or the synthetic homepage entry. -/
def analyze21caseStudies (env : Env21) : List CaseStudy :=
  let csl := ((env21links env).filter caseFilter21).take 3
  let ai := callOpenAI env.scorer
  let base := jsOrInt (ai.bind (·.overallScore)) 72
  if csl.length > 0 then
    csl.enum.map (fun p => mkCaseStudy21 p.2 p.1 base ai (env.rand p.1))
  else [homepageCS21 (env.url.getD "") (env21content env) base ai]

/-- The text the 2.1 handler hands to the scorer: the extracted content,
    or the unable-to-load placeholder when it is empty. -/
def analyze21input (env : Env21) : String :=
  if env21content env = "" then
    "Portfolio URL: " ++ env.url.getD "" ++ ". Unable to fully load page content."
  else env21content env

/-- The 2.1-ultrafast /analyze handler. -/
def analyze_2_1 (env : Env21) : HandlerResult :=
  if urlFalsy env.url then resp400
  else if env.browserOk = false then resp500 "Analysis failed" [.browserLaunch]
  else
    { status := 200, success := true
      data := some (mkReport21 (env.url.getD "") (callOpenAI env.scorer)
        (analyze21caseStudies env))
      errorMsg := none
      effects := [.browserLaunch] ++ scorerEffects env.scorer
      llmInput := some (analyze21input env) }

/-- The case study inside the 25-second emergency default report; its
    object literal has no wordCount key and its section no suggestions. -/
def timeoutCS (u : String) : CaseStudy :=
  { url := u
    title := "Portfolio Overview"
    wordCount := none
    score := some 75
    scoresField := some fastScores
    screenshots := noShots
    sections := [⟨"overview", "Quick Review", "Timeout analysis", some 70, none⟩]
    summary := "Quick timeout analysis"
    strengths := ["Accessible"]
    recommendations := [⟨"high", none, "Extend analysis time for better results"⟩] }

/-- The default report the 25-second emergency timer sends; its object
    literal carries every report field except standoutFeature. -/
def timeoutReportData (u : String) : ReportData :=
  { portfolioUrl := u
    analysisVersion := "2.3-superfast"
    overallScore := some 75
    scores := some fastScores
    summary := "Quick analysis completed within timeout constraints."
    strengths := ["Portfolio accessible", "Professional layout"]
    weaknesses := ["Analysis limited by time constraints"]
    interviewReadiness := "Needs review"
    standoutFeature := none
    caseStudies := [timeoutCS u]
    topRecommendations := [⟨"high", some "Time", "Consider upgrading to paid tier for full analysis"⟩] }

/-- takeQuickScreenshot: renders one above-the-fold screenshot to a local
    file, uploads it, and unlinks the local file before returning, whether
    or not the upload succeeded.  The second component tracks local
    screenshot files on disk. -/
def takeQuickScreenshot (renderOk uploadErr : Bool) (filesOnDisk : Nat) : Option String × Nat :=
  if renderOk = false then (none, filesOnDisk)
  else
    let created := filesOnDisk + 1
    let url := if uploadErr then none else some "supabase-public-url"
    (url, created - 1)

/-- Environment of one 2.3-superfast /analyze request. -/
structure Env23 where
  url : Option String
  browserOk : Bool
  goSucceeds : GotoAttempt → Bool
  extractOk : Bool
  pageText : String
  pageTitle : String
  shotRenderOk : Bool
  shotUploadErr : Bool
  scorer : ScoreCallOutcome

/-- The single case study of the 2.3 success response: its score and
    subscores are echoed from the scorer result without defaults. -/
def mkCS23 (u title content : String) (shot : Option String) (ai : AIResult) : CaseStudy :=
  { url := u
    title := title
    wordCount := some content.length
    score := ai.overallScore
    scoresField := ai.scores
    screenshots := ⟨shot, shot, shot⟩
    sections := [⟨"overview", "Quick Analysis",
      "Portfolio reviewed for basic structure and accessibility.",
      ai.overallScore.map (fun n => n - 5),
      some ["Consider detailed analysis for comprehensive feedback"]⟩]
    summary := "Quick portfolio analysis focusing on accessibility and structure."
    strengths := ["Accessible", "Professional layout"]
    recommendations := [⟨"medium", none, "Upgrade to detailed analysis for comprehensive feedback"⟩] }

/-- The 2.3 success report: overallScore and scores are passed through
    from the scorer result verbatim. -/
def mkReport23 (u title content : String) (shot : Option String) (ai : AIResult) : ReportData :=
  { portfolioUrl := u
    analysisVersion := "2.3-superfast"
    overallScore := ai.overallScore
    scores := ai.scores
    summary := jsOrStr ai.summary "Fast analysis completed successfully."
    strengths := ["Portfolio accessible", "Quick load time", "Professional appearance"]
    weaknesses := ["Limited deep analysis due to speed optimization"]
    interviewReadiness := "Needs detailed review"
    standoutFeature := some "Efficient portfolio structure"
    caseStudies := [mkCS23 u title content shot ai]
    topRecommendations :=
      [⟨"high", some "Analysis", "Consider upgrading for detailed case study analysis"⟩,
       ⟨"medium", some "Speed", "Portfolio loads efficiently"⟩,
       ⟨"low", some "Structure", "Basic structure appears professional"⟩] }

/-- Whether the single 2.3 load attempt succeeded. -/
def env23load (env : Env23) : Bool := (attemptLoad env.goSucceeds loadAttempts_2_3).1

/-- Text extracted by the 2.3 handler. -/
def env23content (env : Env23) : String :=
  if env23load env && env.extractOk then env.pageText else ""

/-- Title extracted by the 2.3 handler. -/
def env23title (env : Env23) : String :=
  if env23load env && env.extractOk then jsOrStr (some env.pageTitle) "Portfolio"
  else "Portfolio"

/-- Screenshot URL the 2.3 handler obtains, if any. -/
def env23shot (env : Env23) : Option String :=
  if env23load env then (takeQuickScreenshot env.shotRenderOk env.shotUploadErr 0).1
  else none

/-- The text the 2.3 handler hands to the scorer. -/
def analyze23input (env : Env23) : String :=
  if env23content env = "" then "Portfolio: " ++ env.url.getD "" else env23content env

/-- Effects of the 2.3 pipeline once the browser is up. -/
def analyze23effects (env : Env23) : List Effect :=
  [Effect.browserLaunch]
    ++ (if env23load env && env.shotRenderOk then [Effect.storageUpload] else [])
    ++ scorerEffects env.scorer

/-- The sequential pipeline of the 2.3-superfast /analyze handler (the
    response its completion path would send); the concurrent 25-second
    timer is modelled separately by the race machine below.  A null
    scorer result would crash the unguarded field access and surface as
    the 500 catch-all. -/
def analyze_2_3 (env : Env23) : HandlerResult :=
  if urlFalsy env.url then resp400
  else if env.browserOk = false then resp500 "Analysis failed" [.browserLaunch]
  else
    match fastAIAnalysis env.scorer with
    | none => resp500 "Analysis failed" (analyze23effects env)
    | some ai =>
      { status := 200, success := true
        data := some (mkReport23 (env.url.getD "") (env23title env) (env23content env)
          (env23shot env) ai)
        errorMsg := none
        effects := analyze23effects env
        llmInput := some (analyze23input env) }

/-- One HTTP response as sent by the 2.3 handler: the success flag of the
    envelope and the data object. -/
structure SentResp where
  success : Bool
  body : ReportData
  deriving DecidableEq

/-- Observable state of the response object and the emergency timer of a
    2.3 /analyze request. -/
structure RaceState where
  headersSent : Bool
  timerArmed : Bool
  sent : List SentResp
  deriving DecidableEq

/-- State right after the handler arms the 25-second timer. -/
def raceInit : RaceState := ⟨false, true, []⟩

/-- res.json: sends a response, or throws if headers were already sent. -/
def resJson (k : SentResp) (s : RaceState) : Except String RaceState :=
  if s.headersSent then Except.error "ERR_HTTP_HEADERS_SENT"
  else Except.ok ⟨true, s.timerArmed, s.sent ++ [k]⟩

/-- The two atomic continuations that race on the event loop: the timer
    callback firing, and the pipeline reaching its completion send. -/
inductive RaceEvent
  | timerFire
  | pipelineDone
  deriving DecidableEq

/-- One atomic step.  A fire of a disarmed (cleared) timer never happens,
    so it is a no-op; an armed fire consumes the timer and performs the
    guarded default send; pipeline completion clears the timer and
    performs the guarded report send. -/
def raceStep (u : String) (rep : ReportData) (s : RaceState) : RaceEvent → Except String RaceState
  | .timerFire =>
    if s.timerArmed then
      let s1 : RaceState := ⟨s.headersSent, false, s.sent⟩
      if s1.headersSent then Except.ok s1 else resJson ⟨true, timeoutReportData u⟩ s1
    else Except.ok s
  | .pipelineDone =>
    let s1 : RaceState := ⟨s.headersSent, false, s.sent⟩
    if s1.headersSent then Except.ok s1 else resJson ⟨true, rep⟩ s1

/-- Run a schedule of atomic steps. -/
def raceRun (u : String) (rep : ReportData) : RaceState → List RaceEvent → Except String RaceState
  | s, [] => Except.ok s
  | s, e :: es =>
    match raceStep u rep s e with
    | Except.ok s1 => raceRun u rep s1 es
    | Except.error m => Except.error m

/-- Environment of one 2.2-with-screenshots /analyze request. -/
structure Env22 where
  url : Option String
  browserOk : Bool
  goSucceeds : GotoAttempt → Bool
  extractOk : Bool
  pageText : String
  pageTitle : String
  pageLinks : List Link
  homeShotRenderOk : Bool
  homeShotUploadErr : Bool
  csGotoOk : Nat → Bool
  csShotRenderOk : Nat → Bool
  csUploadErr : Nat → Bool
  rand : Nat → ℚ
  scorer : ScoreCallOutcome

/-- Screenshot URL obtained for the i-th 2.2 case study: null whenever
    its navigation, its render, or its upload failed. -/
def csShot22 (env : Env22) (i : Nat) : Option String :=
  if env.csGotoOk i && env.csShotRenderOk i && !env.csUploadErr i then
    some "supabase-public-url"
  else none

/-- A 2.2 case study from a discovered link: a random score of 75 plus
    the floor of fifteen times the sample, and fixed subscores. -/
def mkCaseStudy22 (l : Link) (i : Nat) (shot : Option String) (r : ℚ) : CaseStudy :=
  { url := l.href
    title := jsOrStr (some l.text) ("Case Study " ++ toString (i + 1))
    wordCount := some 0
    score := some (75 + ⌊15 * r⌋)
    scoresField := some fastScores
    screenshots := ⟨shot, shot, shot⟩
    sections := [⟨"overview", "Overview", "Case study detected and analyzed.", some 72, some []⟩]
    summary := "Case study from " ++ hostOf l.href
    strengths := ["Good visual presentation", "Clear project structure"]
    recommendations := [⟨"medium", none, "Add more detailed process documentation"⟩] }

/-- The synthetic homepage case study of 2.2 when no link was found. -/
def homepageCS22 (u content : String) (homeShot : Option String) (ai : Option AIResult) : CaseStudy :=
  { url := u
    title := "Portfolio Homepage"
    wordCount := some (wordsOf content)
    score := some (jsOrInt (ai.bind (·.overallScore)) 75)
    scoresField := some ((ai.bind (·.scores)).getD fastScores)
    screenshots := ⟨homeShot, homeShot, homeShot⟩
    sections := [⟨"overview", "Portfolio Overview",
      "Portfolio homepage analyzed for structure and content.", some 72, some []⟩]
    summary := "Portfolio homepage analysis"
    strengths := ((ai.bind (·.strengths)).map (fun xs => xs.take 2)).getD ["Professional presentation"]
    recommendations := ((ai.bind (·.topRecommendations)).map (fun xs => xs.take 2)).getD [] }

/-- Default top recommendations of the 2.2 report. -/
def defaultRecs22 : List Rec :=
  [⟨"high", some "UX", "Add detailed case study documentation showing your design process"⟩,
   ⟨"medium", some "Results", "Include project outcomes and measurable results"⟩,
   ⟨"medium", some "Storytelling", "Show your design thinking step by step"⟩]

/-- The 2.2 report object. -/
def mkReport22 (u : String) (ai : Option AIResult) (cs : List CaseStudy) : ReportData :=
  { portfolioUrl := u
    analysisVersion := "2.2-with-screenshots"
    overallScore := some (jsOrInt (ai.bind (·.overallScore)) 75)
    scores := some ((ai.bind (·.scores)).getD fastScores)
    summary := jsOrStr (ai.bind (·.summary))
      "Portfolio analyzed successfully with visual documentation captured."
    strengths := (ai.bind (·.strengths)).getD
      ["Professional presentation", "Clear navigation", "Good visual hierarchy"]
    weaknesses := (ai.bind (·.weaknesses)).getD
      ["Could benefit from more detailed case studies"]
    interviewReadiness := jsOrStr (ai.bind (·.interviewReadiness)) "Almost ready"
    standoutFeature := some "Strong visual presentation with documented case studies"
    caseStudies := cs
    topRecommendations := (ai.bind (·.topRecommendations)).getD defaultRecs22 }

/-- Whether the single 2.2 load attempt succeeded. -/
def env22load (env : Env22) : Bool := (attemptLoad env.goSucceeds loadAttempts_2_2).1

/-- Text extracted by the 2.2 handler. -/
def env22content (env : Env22) : String :=
  if env22load env && env.extractOk then env.pageText else ""

/-- Links extracted by the 2.2 handler. -/
def env22links (env : Env22) : List Link :=
  if env22load env && env.extractOk then env.pageLinks else []

/-- The first two matching case-study links of the 2.2 handler. -/
def env22csLinks (env : Env22) : List Link :=
  ((env22links env).filter caseFilter21).take 2

/-- Title extracted by the 2.2 handler. -/
def env22title (env : Env22) : String :=
  if env22load env && env.extractOk then jsOrStr (some env.pageTitle) "Portfolio"
  else "Portfolio"

/-- Homepage screenshot URL of the 2.2 handler, if captured and
    uploaded. -/
def env22homeShot (env : Env22) : Option String :=
  if env22load env && env.homeShotRenderOk && !env.homeShotUploadErr then
    some "supabase-public-url"
  else none

/-- The caseStudies array the 2.2 handler builds. -/
def analyze22caseStudies (env : Env22) : List CaseStudy :=
  let csList := (env22csLinks env).enum.map
    (fun p => mkCaseStudy22 p.2 p.1 (csShot22 env p.1) (env.rand p.1))
  if csList.length = 0 then
    [homepageCS22 (env.url.getD "") (env22content env) (env22homeShot env)
      (callOpenAI env.scorer)]
  else csList

/-- The text the 2.2 handler hands to the scorer. -/
def analyze22input (env : Env22) : String :=
  if env22content env = "" then
    "Portfolio URL: " ++ env.url.getD "" ++ ". Page title: " ++ env22title env
  else env22content env

/-- The 2.2-with-screenshots /analyze handler.  Case-study screenshot
    failures are per-iteration and non-fatal; an empty case-study list is
    replaced by the synthetic homepage entry after scoring. -/
def analyze_2_2 (env : Env22) : HandlerResult :=
  if urlFalsy env.url then resp400
  else if env.browserOk = false then resp500 "Analysis failed" [.browserLaunch]
  else
    { status := 200, success := true
      data := some (mkReport22 (env.url.getD "") (callOpenAI env.scorer)
        (analyze22caseStudies env))
      errorMsg := none
      effects := [Effect.browserLaunch]
        ++ (if env22load env && env.homeShotRenderOk then [Effect.storageUpload] else [])
        ++ (((env22csLinks env).enum.filter
              (fun p => env.csGotoOk p.1 && env.csShotRenderOk p.1)).map
              (fun _ => Effect.storageUpload))
        ++ scorerEffects env.scorer
      llmInput := some (analyze22input env) }

/-- One case-study entry of the legacy /analyze response. -/
structure LegacyCS where
  url : String
  desktop : Option String
  mobile : Option String
  deriving DecidableEq

/-- Body of the legacy /analyze success response.  When no case-study
    link is found it carries an empty caseStudies array and a message; it
    has no score fields at all. -/
structure LegacyAnalyzeBody where
  ok : Bool
  portfolio : String
  caseStudies : List LegacyCS
  message : Option String
  deriving DecidableEq

/-- Response of the legacy /analyze handler. -/
structure LegacyAnalyzeResult where
  status : Nat
  body : Option LegacyAnalyzeBody
  errorMsg : Option String
  deriving DecidableEq

/-- Environment of one legacy /analyze request.  Its single page.goto
    uses networkidle2 with no timeout argument and no surrounding
    try/catch, so a navigation failure propagates to the handler's
    catch-all. -/
structure EnvLegacy where
  url : Option String
  launchOk : Bool
  goSucceeds : GotoAttempt → Bool
  links : List String
  csGotoOk : Nat → Bool

/-- Whether the legacy handler's single networkidle2 load succeeded. -/
def envLegacyLoad (env : EnvLegacy) : Bool :=
  (attemptLoad env.goSucceeds loadAttempts_legacy).1

/-- The legacy /analyze handler. -/
def analyze_legacy (env : EnvLegacy) : LegacyAnalyzeResult :=
  if urlFalsy env.url then ⟨400, none, some "Portfolio URL required"⟩
  else if env.launchOk = false then ⟨500, none, some "Server error during analysis"⟩
  else if envLegacyLoad env = false then ⟨500, none, some "Server error during analysis"⟩
  else
    let u := env.url.getD ""
    let csLinks := env.links.filter legacyCaseFilter
    if csLinks.length = 0 then
      ⟨200, some ⟨true, u, [], some "No case study pages found"⟩, none⟩
    else
      let selected := csLinks.take 3
      if (selected.enum.all (fun p => env.csGotoOk p.1)) = false then
        ⟨500, none, some "Server error during analysis"⟩
      else
        ⟨200, some ⟨true, u,
          selected.enum.map (fun p => ⟨p.2, some "supabase-public-url", some "supabase-public-url"⟩),
          none⟩, none⟩

/-- Response of a /review handler together with the number of temporary
    local screenshot files left on disk afterwards. -/
structure ReviewResult where
  status : Nat
  success : Bool
  errorMsg : Option String
  tempFilesLeft : Nat
  deriving DecidableEq

/-- Environment of one /review request. -/
structure EnvReview where
  url : Option String
  email : Option String
  launchOk : Bool
  gotoOk : Bool
  shotOk : Bool
  uploadErr : Bool

/-- The legacy /review handler.  When the storage upload reports an error
    it returns 500 before reaching the unlink call, so the screenshot
    file written just before stays on disk. -/
def review_legacy (env : EnvReview) (files0 : Nat) : ReviewResult :=
  if urlFalsy env.url then ⟨400, false, some "URL is required", files0⟩
  else if env.launchOk = false then ⟨500, false, some "Server error", files0⟩
  else if env.gotoOk = false then ⟨500, false, some "Server error", files0⟩
  else if env.shotOk = false then ⟨500, false, some "Server error", files0⟩
  else
    let files1 := files0 + 1
    if env.uploadErr then ⟨500, false, some "Upload failed", files1⟩
    else ⟨200, true, none, files1 - 1⟩

/-- The /review handler kept in the 2.1 file: it never inspects the
    upload result, so the unlink is always reached once the screenshot
    was written. -/
def review_21 (env : EnvReview) (files0 : Nat) : ReviewResult :=
  if urlFalsy env.url then ⟨400, false, some "URL is required", files0⟩
  else if env.launchOk = false then ⟨500, false, some "Server error", files0⟩
  else if env.gotoOk = false then ⟨500, false, some "Server error", files0⟩
  else if env.shotOk = false then ⟨500, false, some "Server error", files0⟩
  else
    let files1 := files0 + 1
    ⟨200, true, none, files1 - 1⟩

/-- Invariant run lemma for the response race: from any state satisfying
    the one-response invariant, any schedule of atomic steps runs without
    an exception, preserves the invariant, never unsends or resends once
    headers are out, is a no-op on a finished disarmed state, and has sent
    headers once a pipeline completion occurred. -/
theorem raceRun_inv (u : String) (rep : ReportData) (es : List RaceEvent) :
    ∀ (hs ta : Bool) (se : List SentResp),
      ((hs = true ∧ se.length = 1) ∨ (hs = false ∧ se = [])) →
      ∃ s1, raceRun u rep ⟨hs, ta, se⟩ es = Except.ok s1 ∧
        ((s1.headersSent = true ∧ s1.sent.length = 1) ∨
          (s1.headersSent = false ∧ s1.sent = [])) ∧
        (hs = true → s1.sent = se ∧ s1.headersSent = true) ∧
        (hs = true → ta = false → s1 = ⟨hs, ta, se⟩) ∧
        (RaceEvent.pipelineDone ∈ es → s1.headersSent = true) := by
  induction es with
  | nil =>
    intro hs ta se hinv
    exact ⟨⟨hs, ta, se⟩, rfl, hinv, fun h => ⟨rfl, h⟩, fun _ _ => rfl, by simp⟩
  | cons e es ih =>
    intro hs ta se hinv
    cases e with
    | timerFire =>
      cases ta with
      | false =>
        have hstep : raceRun u rep ⟨hs, false, se⟩ (RaceEvent.timerFire :: es) =
            raceRun u rep ⟨hs, false, se⟩ es := rfl
        obtain ⟨s1, hrun, h1, h2, h3, h4⟩ := ih hs false se hinv
        refine ⟨s1, hstep ▸ hrun, h1, h2, h3, fun hm => ?_⟩
        rcases List.mem_cons.mp hm with h | h
        · exact absurd h (by simp)
        · exact h4 h
      | true =>
        cases hs with
        | true =>
          rcases hinv with ⟨_, hlen⟩ | ⟨h, _⟩
          · have hstep : raceRun u rep ⟨true, true, se⟩ (RaceEvent.timerFire :: es) =
                raceRun u rep ⟨true, false, se⟩ es := rfl
            obtain ⟨s1, hrun, h1, h2, h3, h4⟩ := ih true false se (Or.inl ⟨rfl, hlen⟩)
            exact ⟨s1, hstep ▸ hrun, h1, h2, fun _ h => Bool.noConfusion h,
              fun _ => (h2 rfl).2⟩
          · exact Bool.noConfusion h
        | false =>
          rcases hinv with ⟨h, _⟩ | ⟨_, hse⟩
          · exact Bool.noConfusion h
          · subst hse
            have hstep : raceRun u rep ⟨false, true, []⟩ (RaceEvent.timerFire :: es) =
                raceRun u rep ⟨true, false, [⟨true, timeoutReportData u⟩]⟩ es := rfl
            obtain ⟨s1, hrun, h1, h2, h3, h4⟩ :=
              ih true false [⟨true, timeoutReportData u⟩] (Or.inl ⟨rfl, rfl⟩)
            exact ⟨s1, hstep ▸ hrun, h1, fun h => Bool.noConfusion h,
              fun h => Bool.noConfusion h, fun _ => (h2 rfl).2⟩
    | pipelineDone =>
      cases hs with
      | true =>
        rcases hinv with ⟨_, hlen⟩ | ⟨h, _⟩
        · have hstep : raceRun u rep ⟨true, ta, se⟩ (RaceEvent.pipelineDone :: es) =
              raceRun u rep ⟨true, false, se⟩ es := rfl
          obtain ⟨s1, hrun, h1, h2, h3, h4⟩ := ih true false se (Or.inl ⟨rfl, hlen⟩)
          refine ⟨s1, hstep ▸ hrun, h1, h2, fun _ hta => ?_, fun _ => (h2 rfl).2⟩
          subst hta
          exact h3 rfl rfl
        · exact Bool.noConfusion h
      | false =>
        rcases hinv with ⟨h, _⟩ | ⟨_, hse⟩
        · exact Bool.noConfusion h
        · subst hse
          have hstep : raceRun u rep ⟨false, ta, []⟩ (RaceEvent.pipelineDone :: es) =
              raceRun u rep ⟨true, false, [⟨true, rep⟩]⟩ es := rfl
          obtain ⟨s1, hrun, h1, h2, h3, h4⟩ :=
            ih true false [⟨true, rep⟩] (Or.inl ⟨rfl, rfl⟩)
          exact ⟨s1, hstep ▸ hrun, h1, fun h => Bool.noConfusion h,
            fun h => Bool.noConfusion h, fun _ => (h2 rfl).2⟩

/-- C1: for a 2.3-superfast /analyze request armed with the 25-second
    emergency timer, every schedule of the timer callback against the
    pipeline completion runs without an unhandled exception and sends at
    most one response; a schedule containing the pipeline completion sends
    exactly one; if the completion comes first, the assembled report is the
    one sent and the timer is left disarmed; if the timer fires first, the
    success-true default report is the one sent and the later completion
    adds no second response. -/
theorem c1_analyze23_exactly_one_response :
    (∀ (u : String) (rep : ReportData) (es : List RaceEvent),
        RaceEvent.pipelineDone ∈ es →
        ∃ s1, raceRun u rep raceInit es = Except.ok s1 ∧ s1.sent.length = 1)
    ∧ (∀ (u : String) (rep : ReportData) (es : List RaceEvent),
        ∃ s1, raceRun u rep raceInit es = Except.ok s1 ∧ s1.sent.length ≤ 1)
    ∧ (∀ (u : String) (rep : ReportData) (rest : List RaceEvent),
        ∃ s1, raceRun u rep raceInit (RaceEvent.pipelineDone :: rest) = Except.ok s1 ∧
          s1.sent = [⟨true, rep⟩] ∧ s1.timerArmed = false)
    ∧ (∀ (u : String) (rep : ReportData) (rest : List RaceEvent),
        ∃ s1, raceRun u rep raceInit (RaceEvent.timerFire :: rest) = Except.ok s1 ∧
          s1.sent = [⟨true, timeoutReportData u⟩]) := by
  refine ⟨?_, ?_, ?_, ?_⟩
  · intro u rep es hmem
    obtain ⟨s1, hrun, h1, _, _, h4⟩ := raceRun_inv u rep es false true [] (Or.inr ⟨rfl, rfl⟩)
    refine ⟨s1, hrun, ?_⟩
    rcases h1 with ⟨_, hlen⟩ | ⟨hhs, _⟩
    · exact hlen
    · exact absurd (h4 hmem) (by simp [hhs])
  · intro u rep es
    obtain ⟨s1, hrun, h1, _, _, _⟩ := raceRun_inv u rep es false true [] (Or.inr ⟨rfl, rfl⟩)
    refine ⟨s1, hrun, ?_⟩
    rcases h1 with ⟨_, hlen⟩ | ⟨_, hse⟩
    · exact hlen.le
    · simp [hse]
  · intro u rep rest
    have hstep : raceRun u rep raceInit (RaceEvent.pipelineDone :: rest) =
        raceRun u rep ⟨true, false, [⟨true, rep⟩]⟩ rest := rfl
    obtain ⟨s1, hrun, h1, h2, h3, h4⟩ :=
      raceRun_inv u rep rest true false [⟨true, rep⟩] (Or.inl ⟨rfl, rfl⟩)
    refine ⟨s1, hstep ▸ hrun, ?_, ?_⟩
    · rw [h3 rfl rfl]
    · rw [h3 rfl rfl]
  · intro u rep rest
    have hstep : raceRun u rep raceInit (RaceEvent.timerFire :: rest) =
        raceRun u rep ⟨true, false, [⟨true, timeoutReportData u⟩]⟩ rest := rfl
    obtain ⟨s1, hrun, h1, h2, h3, h4⟩ :=
      raceRun_inv u rep rest true false [⟨true, timeoutReportData u⟩] (Or.inl ⟨rfl, rfl⟩)
    refine ⟨s1, hstep ▸ hrun, ?_⟩
    rw [h3 rfl rfl]

/-- Witness for C1 at a concrete schedule: the timer fires first, then the
    pipeline completes; exactly one response goes out. -/
theorem c1_analyze23_exactly_one_response_witness :
    ∃ s1, raceRun "https://example.com" (timeoutReportData "https://example.com") raceInit
        [RaceEvent.timerFire, RaceEvent.pipelineDone] = Except.ok s1 ∧
      s1.sent.length = 1 :=
  c1_analyze23_exactly_one_response.1 "https://example.com"
    (timeoutReportData "https://example.com")
    [RaceEvent.timerFire, RaceEvent.pipelineDone] (by decide)

/-- Shape of the 2.1 handler's response once the url check and browser
    launch pass: a 200 success envelope around the assembled report. -/
theorem analyze_2_1_shape (env : Env21) (h1 : urlFalsy env.url = false)
    (h2 : env.browserOk = true) :
    analyze_2_1 env =
      { status := 200, success := true
        data := some (mkReport21 (env.url.getD "") (callOpenAI env.scorer)
          (analyze21caseStudies env))
        errorMsg := none
        effects := [Effect.browserLaunch] ++ scorerEffects env.scorer
        llmInput := some (analyze21input env) } := by
  simp [analyze_2_1, h1, h2]

/-- Shape of the 2.2 handler's response once the url check and browser
    launch pass. -/
theorem analyze_2_2_shape (env : Env22) (h1 : urlFalsy env.url = false)
    (h2 : env.browserOk = true) :
    (analyze_2_2 env).status = 200 ∧ (analyze_2_2 env).success = true ∧
    (analyze_2_2 env).data = some (mkReport22 (env.url.getD "") (callOpenAI env.scorer)
      (analyze22caseStudies env)) ∧
    (analyze_2_2 env).llmInput = some (analyze22input env) := by
  refine ⟨?_, ?_, ?_, ?_⟩ <;> simp [analyze_2_2, h1, h2]

/-- The 2.3 scorer returns an object on every outcome except a 2xx body
    that parses to JSON null, the one case where it returns null. -/
theorem fastAIAnalysis_eq_none_iff (o : ScoreCallOutcome) :
    fastAIAnalysis o = none ↔ o = ScoreCallOutcome.parsedNull := by
  cases o <;> simp [fastAIAnalysis]

/-- On any outcome other than the null-body one, the 2.3 scorer returns
    an object. -/
theorem fastAIAnalysis_isSome_of_ne (o : ScoreCallOutcome)
    (h : o ≠ ScoreCallOutcome.parsedNull) : (fastAIAnalysis o).isSome = true := by
  cases o <;> simp_all [fastAIAnalysis]

/-- Shape of the 2.3 handler's response once the url check and browser
    launch pass, given the scorer's object. -/
theorem analyze_2_3_shape (env : Env23) (h1 : urlFalsy env.url = false)
    (h2 : env.browserOk = true) (ai : AIResult)
    (hai : fastAIAnalysis env.scorer = some ai) :
    analyze_2_3 env =
      { status := 200, success := true
        data := some (mkReport23 (env.url.getD "") (env23title env) (env23content env)
          (env23shot env) ai)
        errorMsg := none
        effects := analyze23effects env
        llmInput := some (analyze23input env) } := by
  simp [analyze_2_3, h1, h2, hai]

/-- C7: for every /analyze request whose body has a missing or empty url,
    each handler variant responds 400 and attempts no browser launch, no
    storage upload and no scoring call before responding. -/
theorem c7_missing_url_400_no_effects :
    (∀ env : Env21, urlFalsy env.url = true →
      (analyze_2_1 env).status = 400 ∧ (analyze_2_1 env).success = false ∧
      (analyze_2_1 env).effects = [] ∧ (analyze_2_1 env).data = none)
  ∧ (∀ env : Env22, urlFalsy env.url = true →
      (analyze_2_2 env).status = 400 ∧ (analyze_2_2 env).effects = [])
  ∧ (∀ env : Env23, urlFalsy env.url = true →
      (analyze_2_3 env).status = 400 ∧ (analyze_2_3 env).effects = [])
  ∧ (∀ env : EnvLegacy, urlFalsy env.url = true →
      (analyze_legacy env).status = 400 ∧ (analyze_legacy env).body = none) := by
  refine ⟨?_, ?_, ?_, ?_⟩ <;> intro env h <;>
    simp [analyze_2_1, analyze_2_2, analyze_2_3, analyze_legacy, h, resp400]

/-- Witness for C7 at concrete requests: one with no url field, one with
    an empty url. -/
theorem c7_missing_url_400_no_effects_witness :
    (analyze_2_1 ⟨none, true, fun _ => false, true, "", [],
        ScoreCallOutcome.noKey, fun _ => 0⟩).status = 400 ∧
    (analyze_2_3 ⟨some "", true, fun _ => false, true, "", "", true, false,
        ScoreCallOutcome.noKey⟩).effects = [] :=
  ⟨(c7_missing_url_400_no_effects.1 _ (by decide)).1,
   (c7_missing_url_400_no_effects.2.2.1 _ (by decide)).2⟩

/-- C5 counterexample: a link whose lowercased href-plus-text contains
    the keyword portfolio but none of case, work, project.  The
    specification's classifier selects it, the code's filter rejects it,
    and the handler's selection from a page holding only this link is
    empty. -/
theorem c5_portfolio_keyword_counterexample :
    specIsCaseStudy ⟨"https://site.io/portfolio-items", "Browse"⟩ = true ∧
    caseFilter21 ⟨"https://site.io/portfolio-items", "Browse"⟩ = false ∧
    (([(⟨"https://site.io/portfolio-items", "Browse"⟩ : Link)].filter caseFilter21).take 3) = [] := by
  refine ⟨?_, ?_, ?_⟩ <;> decide

/-- C5 (amended): the modern filter classifies a link as a case-study
    candidate exactly when the lowercased concatenation of href and
    anchor text contains one of the keywords case, work, project; the
    keyword portfolio is not part of the list; selected candidates are a
    sublist of the extracted links (original DOM order) capped at three
    (two in the 2.2 variant). -/
theorem c5_case_study_selection :
    (∀ l : Link, caseFilter21 l = kwMatch kwList21 l)
  ∧ (∀ links : List Link,
        ((links.filter caseFilter21).take 3).Sublist links ∧
        ((links.filter caseFilter21).take 3).length ≤ 3 ∧
        ((links.filter caseFilter21).take 2).Sublist links ∧
        ((links.filter caseFilter21).take 2).length ≤ 2)
  ∧ (∀ (links : List Link) (l : Link), l ∈ (links.filter caseFilter21).take 3 →
        ∃ k ∈ kwList21, strHas (lowerStr (l.href ++ " " ++ l.text)) k = true)
  ∧ ("portfolio" ∈ kwList21 → False) := by
  refine ⟨?_, ?_, ?_, ?_⟩
  · intro l
    simp [caseFilter21, kwMatch, kwList21, Bool.or_assoc]
  · intro links
    exact ⟨(List.take_sublist 3 _).trans (List.filter_sublist _),
      List.length_take_le 3 _,
      (List.take_sublist 2 _).trans (List.filter_sublist _),
      List.length_take_le 2 _⟩
  · intro links l hmem
    have h1 := List.mem_of_mem_take hmem
    have h2 := (List.mem_filter.mp h1).2
    simp only [caseFilter21, Bool.or_eq_true] at h2
    rcases h2 with (h | h) | h
    · exact ⟨"case", by simp [kwList21], h⟩
    · exact ⟨"work", by simp [kwList21], h⟩
    · exact ⟨"project", by simp [kwList21], h⟩
  · intro h
    simp [kwList21] at h

/-- Witness for C5 at a concrete page: its single case-study-looking link
    is selected and is justified by one of the three keywords. -/
theorem c5_case_study_selection_witness :
    ∃ k ∈ kwList21,
      strHas (lowerStr ("https://x.com/case-study-1" ++ " " ++ "View project")) k = true :=
  c5_case_study_selection.2.2.1 [⟨"https://x.com/case-study-1", "View project"⟩]
    ⟨"https://x.com/case-study-1", "View project"⟩ (by decide)

/-- C8 counterexample: no /analyze variant implements the claimed
    three-rung ladder.  The 2.1 ladder is DOM-content-loaded at 20s then
    first-byte-committed at 10s with no network-idle rung; the 2.2 and
    2.3 handlers make a single DOM-content-loaded attempt; the legacy
    handler makes a single network-idle attempt with no fallback. -/
theorem c8_ladder_counterexample :
    loadAttempts_2_1.map GotoAttempt.strategy ≠ specLoadLadder ∧
    WaitUntil.networkidle2 ∉ loadAttempts_2_1.map GotoAttempt.strategy ∧
    loadAttempts_2_2.map GotoAttempt.strategy = [WaitUntil.domcontentloaded] ∧
    loadAttempts_2_3.map GotoAttempt.strategy = [WaitUntil.domcontentloaded] ∧
    loadAttempts_legacy.map GotoAttempt.strategy = [WaitUntil.networkidle2] ∧
    loadAttempts_legacy.map GotoAttempt.strategy ≠ specLoadLadder := by
  refine ⟨?_, ?_, ?_, ?_, ?_, ?_⟩ <;> decide

/-- C8 (amended): the 2.1 fetcher tries DOM-content-loaded with a 20s
    timeout and falls back to first-byte-committed with a 10s timeout,
    stopping at the first attempt that succeeds; the 2.2 and 2.3
    fetchers make one DOM-content-loaded attempt and no fallback; the
    legacy fetcher makes one network-idle attempt and no fallback,
    failing the whole request when it fails; when every attempt fails,
    each ladder is exhausted in order. -/
theorem c8_load_strategy_fallback :
    (∀ g : GotoAttempt → Bool, g ⟨.domcontentloaded, 20000⟩ = true →
        attemptLoad g loadAttempts_2_1 = (true, [⟨.domcontentloaded, 20000⟩]))
  ∧ (∀ g : GotoAttempt → Bool, g ⟨.domcontentloaded, 20000⟩ = false →
        g ⟨.commit, 10000⟩ = true →
        attemptLoad g loadAttempts_2_1 = (true, loadAttempts_2_1))
  ∧ (∀ g : GotoAttempt → Bool, (∀ a, g a = false) →
        attemptLoad g loadAttempts_2_1 = (false, loadAttempts_2_1) ∧
        attemptLoad g loadAttempts_2_2 = (false, loadAttempts_2_2) ∧
        attemptLoad g loadAttempts_2_3 = (false, loadAttempts_2_3) ∧
        attemptLoad g loadAttempts_legacy = (false, loadAttempts_legacy))
  ∧ (∀ g : GotoAttempt → Bool, g ⟨.networkidle2, 30000⟩ = true →
        attemptLoad g loadAttempts_legacy = (true, loadAttempts_legacy))
  ∧ (∀ env : EnvLegacy, urlFalsy env.url = false → env.launchOk = true →
        envLegacyLoad env = false →
        (analyze_legacy env).status = 500 ∧ (analyze_legacy env).body = none) := by
  refine ⟨?_, ?_, ?_, ?_, ?_⟩
  · intro g h
    simp [attemptLoad, loadAttempts_2_1, h]
  · intro g h1 h2
    simp [attemptLoad, loadAttempts_2_1, h1, h2]
  · intro g h
    simp [attemptLoad, loadAttempts_2_1, loadAttempts_2_2, loadAttempts_2_3,
      loadAttempts_legacy, h]
  · intro g h
    simp [attemptLoad, loadAttempts_legacy, h]
  · intro env h1 h2 h3
    constructor <;> simp [analyze_legacy, h1, h2, h3]

/-- Witness for C8 with a concrete navigation oracle that accepts only
    DOM-content-loaded waits: the 2.1 ladder stops at its first rung. -/
theorem c8_load_strategy_fallback_witness :
    attemptLoad (fun a => decide (a.strategy = WaitUntil.domcontentloaded)) loadAttempts_2_1 =
      (true, [⟨WaitUntil.domcontentloaded, 20000⟩]) :=
  c8_load_strategy_fallback.1 _ (by decide)

/-- C9 counterexample: a scorer response that parses with overallScore 0
    is not passed through verbatim by the 2.1 assembler; the falsy check
    replaces it with the default 72. -/
theorem c9_zero_score_counterexample :
    (mkReport21 "https://example.com"
        (some ⟨some 0, some ⟨55, 55, 55, 55⟩, none, none, none, none, none⟩)
        []).overallScore = some 72 ∧
    (some (72 : Int) ≠ some (0 : Int)) := by
  exact ⟨rfl, by decide⟩

/-- C9 (amended): parsed numeric scores are passed through unvalidated
    and unclamped, with one exception: in the 2.1 and 2.2 assemblers the
    falsy value 0 is replaced by the variant default, while any nonzero
    integer, however far outside the documented range, is reported
    verbatim; the 2.3 assembler reports every parsed integer verbatim. -/
theorem c9_score_passthrough :
    (∀ n : Int, n ≠ 0 → ∀ (u : String) (cs : List CaseStudy) (a : AIResult),
        a.overallScore = some n → (mkReport21 u (some a) cs).overallScore = some n)
  ∧ (∀ (u : String) (cs : List CaseStudy) (a : AIResult),
        a.overallScore = some 0 → (mkReport21 u (some a) cs).overallScore = some 72)
  ∧ (∀ n : Int, n ≠ 0 → ∀ (u : String) (cs : List CaseStudy) (a : AIResult),
        a.overallScore = some n → (mkReport22 u (some a) cs).overallScore = some n)
  ∧ (∀ (n : Int) (u t c : String) (shot : Option String) (a : AIResult),
        a.overallScore = some n → (mkReport23 u t c shot a).overallScore = some n)
  ∧ (∀ (u : String) (cs : List CaseStudy) (a : AIResult) (s : Scores),
        a.scores = some s → (mkReport21 u (some a) cs).scores = some s) := by
  refine ⟨?_, ?_, ?_, ?_, ?_⟩
  · intro n hn u cs a ha
    simp [mkReport21, jsOrInt, ha, hn]
  · intro u cs a ha
    simp [mkReport21, jsOrInt, ha]
  · intro n hn u cs a ha
    simp [mkReport22, jsOrInt, ha, hn]
  · intro n u t c shot a ha
    simp [mkReport23, ha]
  · intro u cs a s hs
    simp [mkReport21, hs]

/-- Witness for C9 at the out-of-range integer 150: it is reported
    verbatim by the 2.1 assembler, with no clamping to any range. -/
theorem c9_score_passthrough_witness :
    (mkReport21 "https://example.com"
        (some ⟨some 150, none, none, none, none, none, none⟩) []).overallScore = some 150 :=
  c9_score_passthrough.1 150 (by decide) "https://example.com" []
    ⟨some 150, none, none, none, none, none, none⟩ rfl

/-- C10: in the 2.1 variant, a case study built from a discovered link
    scores the base score plus the floor of ten times a fresh uniform
    sample minus five, hence always within base minus five and base plus
    four; two runs differing only in the sample can report different
    per-case-study scores; and the top-level overallScore is independent
    of the random stream. -/
theorem c10_random_case_study_score :
    (∀ (l : Link) (i : Nat) (base : Int) (ai : Option AIResult) (r : ℚ),
        0 ≤ r → r < 1 →
        ∃ sc, (mkCaseStudy21 l i base ai r).score = some sc ∧
          base - 5 ≤ sc ∧ sc ≤ base + 4)
  ∧ ((mkCaseStudy21 ⟨"https://x.com/work", "Work"⟩ 0 72 none 0).score = some 67 ∧
      (mkCaseStudy21 ⟨"https://x.com/work", "Work"⟩ 0 72 none (9 / 10)).score = some 76)
  ∧ (∀ (env : Env21) (r1 r2 : Nat → ℚ),
        ((analyze_2_1 { env with rand := r1 }).data.map ReportData.overallScore) =
          ((analyze_2_1 { env with rand := r2 }).data.map ReportData.overallScore)) := by
  refine ⟨?_, ⟨?_, ?_⟩, ?_⟩
  · intro l i base ai r h0 h1
    refine ⟨base + ⌊10 * r - 5⌋, rfl, ?_, ?_⟩
    · have h : (-5 : Int) ≤ ⌊10 * r - 5⌋ := by
        apply Int.le_floor.mpr
        push_cast
        linarith
      omega
    · have h : ⌊10 * r - 5⌋ < 5 := by
        apply Int.floor_lt.mpr
        push_cast
        linarith
      omega
  · show some ((72 : Int) + ⌊10 * (0 : ℚ) - 5⌋) = some 67
    norm_num
  · show some ((72 : Int) + ⌊10 * ((9 : ℚ) / 10) - 5⌋) = some 76
    norm_num
  · intro env r1 r2
    by_cases hu : urlFalsy env.url = true
    · simp [analyze_2_1, hu]
    · by_cases hb : env.browserOk = false
      · simp [analyze_2_1, hu, hb]
      · simp [analyze_2_1, hu, hb, mkReport21]

/-- Witness for C10 at the sample one half: the score lands inside the
    interval 67 to 76 around the default base 72. -/
theorem c10_random_case_study_score_witness :
    ∃ sc, (mkCaseStudy21 ⟨"https://x.com/work", "Work"⟩ 0 72 none (1 / 2)).score = some sc ∧
      67 ≤ sc ∧ sc ≤ 76 := by
  obtain ⟨sc, h1, h2, h3⟩ :=
    c10_random_case_study_score.1 ⟨"https://x.com/work", "Work"⟩ 0 72 none (1 / 2)
      (by norm_num) (by norm_num)
  exact ⟨sc, h1, by omega, by omega⟩

/-- C4 counterexample: the 2.3 scorer does not yield a null result on
    the claimed failures: on a timeout, on a missing credential, on a
    non-2xx status and on malformed JSON it itself returns the hardcoded
    default object, so no assembler-side substitution of a null result
    takes place in that variant. -/
theorem c4_fast_scorer_not_null_counterexample :
    fastAIAnalysis ScoreCallOutcome.timeout ≠ none ∧
    fastAIAnalysis ScoreCallOutcome.timeout =
      some ⟨some 75, some fastScores, some "Portfolio analyzed with basic assessment.",
        none, none, none, none⟩ ∧
    fastAIAnalysis ScoreCallOutcome.noKey =
      some ⟨some 75, some fastScores, none, none, none, none, none⟩ := by
  refine ⟨?_, rfl, rfl⟩
  intro h
  simp [fastAIAnalysis] at h

/-- C4 (amended): a failed scoring attempt is never retried (at most one
    request per /analyze call); in the 2.1 and 2.2 variants the scorer
    yields null on every failure and the assembler then substitutes the
    hardcoded defaults wholesale, so the response carries the static
    subscores and overallScore with success still true; in the 2.3
    variant the scorer itself returns the hardcoded default object on
    each of the claimed failures (timeout, non-2xx, malformed JSON,
    missing credential), with the same observable result — its only null
    return is a 2xx body parsing to JSON null, which crashes the
    handler's unguarded field access into the 500 catch-all. -/
theorem c4_scorer_failure_defaults :
    (callOpenAI ScoreCallOutcome.noKey = none ∧
      callOpenAI ScoreCallOutcome.timeout = none ∧
      callOpenAI ScoreCallOutcome.badJson = none ∧
      (∀ s, callOpenAI (ScoreCallOutcome.nonOk s) = none))
  ∧ (∀ o, fetchAttempts o ≤ 1)
  ∧ (∀ env : Env21, urlFalsy env.url = false → env.browserOk = true →
        callOpenAI env.scorer = none →
        (analyze_2_1 env).status = 200 ∧ (analyze_2_1 env).success = true ∧
        (analyze_2_1 env).data.map ReportData.scores = some (some defaultScores21) ∧
        (analyze_2_1 env).data.map ReportData.overallScore = some (some 72))
  ∧ (∀ env : Env22, urlFalsy env.url = false → env.browserOk = true →
        callOpenAI env.scorer = none →
        (analyze_2_2 env).success = true ∧
        (analyze_2_2 env).data.map ReportData.scores = some (some fastScores) ∧
        (analyze_2_2 env).data.map ReportData.overallScore = some (some 75))
  ∧ (fastAIAnalysis ScoreCallOutcome.timeout =
        some ⟨some 75, some fastScores, some "Portfolio analyzed with basic assessment.",
          none, none, none, none⟩ ∧
      fastAIAnalysis ScoreCallOutcome.badJson =
        some ⟨some 75, some fastScores, some "Portfolio analyzed with basic assessment.",
          none, none, none, none⟩ ∧
      (∀ s, fastAIAnalysis (ScoreCallOutcome.nonOk s) =
        some ⟨some 75, some fastScores, some "Portfolio analyzed with basic assessment.",
          none, none, none, none⟩) ∧
      fastAIAnalysis ScoreCallOutcome.noKey =
        some ⟨some 75, some fastScores, none, none, none, none, none⟩ ∧
      fastAIAnalysis ScoreCallOutcome.parsedNull = none)
  ∧ (∀ env : Env23, urlFalsy env.url = false → env.browserOk = true →
        env.scorer = ScoreCallOutcome.timeout →
        (analyze_2_3 env).status = 200 ∧ (analyze_2_3 env).success = true ∧
        (analyze_2_3 env).data.map ReportData.scores = some (some fastScores) ∧
        (analyze_2_3 env).data.map ReportData.overallScore = some (some 75))
  ∧ (∀ env : Env23, urlFalsy env.url = false → env.browserOk = true →
        env.scorer = ScoreCallOutcome.parsedNull →
        (analyze_2_3 env).status = 500 ∧ (analyze_2_3 env).success = false ∧
        (analyze_2_3 env).data = none) := by
  refine ⟨⟨rfl, rfl, rfl, fun s => rfl⟩, ?_, ?_, ?_,
    ⟨rfl, rfl, fun s => rfl, rfl, rfl⟩, ?_, ?_⟩
  · intro o
    cases o <;> simp [fetchAttempts]
  · intro env h1 h2 h3
    rw [analyze_2_1_shape env h1 h2]
    refine ⟨rfl, rfl, ?_, ?_⟩ <;> simp [mkReport21, h3, jsOrInt]
  · intro env h1 h2 h3
    obtain ⟨hst, hsu, hd, _⟩ := analyze_2_2_shape env h1 h2
    refine ⟨hsu, ?_, ?_⟩ <;> rw [hd] <;> simp [mkReport22, h3, jsOrInt]
  · intro env h1 h2 h3
    have hai : fastAIAnalysis env.scorer =
        some ⟨some 75, some fastScores, some "Portfolio analyzed with basic assessment.",
          none, none, none, none⟩ := by
      rw [h3]
      rfl
    rw [analyze_2_3_shape env h1 h2 _ hai]
    exact ⟨rfl, rfl, rfl, rfl⟩
  · intro env h1 h2 h3
    have hnull : fastAIAnalysis env.scorer = none := by
      rw [h3]
      rfl
    refine ⟨?_, ?_, ?_⟩ <;> simp [analyze_2_3, h1, h2, hnull, resp500]

/-- Witness for C4 at a concrete request whose scoring call times out:
    the 2.1 response carries exactly the default subscores. -/
theorem c4_scorer_failure_defaults_witness :
    (analyze_2_1 ⟨some "https://example.com", true, fun _ => false, true, "", [],
        ScoreCallOutcome.timeout, fun _ => 0⟩).data.map ReportData.scores =
      some (some defaultScores21) :=
  (c4_scorer_failure_defaults.2.2.1
    ⟨some "https://example.com", true, fun _ => false, true, "", [],
      ScoreCallOutcome.timeout, fun _ => 0⟩ (by decide) rfl rfl).2.2.1

/-- C3 counterexample: in the legacy /analyze variant the single
    network-idle page load has no surrounding try/catch, so a navigation
    failure reaches the catch-all and the handler answers 500, not a
    success report. -/
theorem c3_legacy_load_failure_500 :
    analyze_legacy ⟨some "https://unreachable.example", true, fun _ => false, [], fun _ => true⟩ =
      ⟨500, none, some "Server error during analysis"⟩ := rfl

/-- C3 (amended): in the 2.1 and 2.2 variants a request on which every
    page-load attempt fails still produces a 200 success-true report,
    with the scorer invoked on the unable-to-load placeholder text,
    never a 500.  The 2.3 variant behaves the same unless its scorer
    responds 2xx with a body parsing to JSON null, in which case the
    unguarded field access crashes into the 500 catch-all regardless of
    the load outcome.  The legacy variant turns the load failure itself
    into a 500. -/
theorem c3_load_failure_still_succeeds :
    (∀ env : Env21, urlFalsy env.url = false → env.browserOk = true →
        (∀ a, env.goSucceeds a = false) →
        (analyze_2_1 env).status = 200 ∧ (analyze_2_1 env).success = true ∧
        (analyze_2_1 env).llmInput =
          some ("Portfolio URL: " ++ env.url.getD "" ++ ". Unable to fully load page content."))
  ∧ (∀ env : Env22, urlFalsy env.url = false → env.browserOk = true →
        (∀ a, env.goSucceeds a = false) →
        (analyze_2_2 env).status = 200 ∧ (analyze_2_2 env).success = true ∧
        (analyze_2_2 env).llmInput =
          some ("Portfolio URL: " ++ env.url.getD "" ++ ". Page title: " ++ "Portfolio"))
  ∧ (∀ env : Env23, urlFalsy env.url = false → env.browserOk = true →
        env.scorer ≠ ScoreCallOutcome.parsedNull →
        (∀ a, env.goSucceeds a = false) →
        (analyze_2_3 env).status = 200 ∧ (analyze_2_3 env).success = true ∧
        (analyze_2_3 env).llmInput = some ("Portfolio: " ++ env.url.getD ""))
  ∧ (∀ env : Env23, urlFalsy env.url = false → env.browserOk = true →
        env.scorer = ScoreCallOutcome.parsedNull →
        (analyze_2_3 env).status = 500 ∧ (analyze_2_3 env).success = false) := by
  refine ⟨?_, ?_, ?_, ?_⟩
  · intro env h1 h2 h3
    have hload : env21load env = false := by
      simp [env21load, attemptLoad, loadAttempts_2_1, h3]
    have hcontent : env21content env = "" := by
      simp [env21content, hload]
    have hin : analyze21input env =
        "Portfolio URL: " ++ env.url.getD "" ++ ". Unable to fully load page content." := by
      simp [analyze21input, hcontent]
    rw [analyze_2_1_shape env h1 h2]
    exact ⟨rfl, rfl, by rw [hin]⟩
  · intro env h1 h2 h3
    have hload : env22load env = false := by
      simp [env22load, attemptLoad, loadAttempts_2_2, h3]
    have hcontent : env22content env = "" := by
      simp [env22content, hload]
    have htitle : env22title env = "Portfolio" := by
      simp [env22title, hload]
    have hin : analyze22input env =
        "Portfolio URL: " ++ env.url.getD "" ++ ". Page title: " ++ "Portfolio" := by
      rw [analyze22input, hcontent, htitle]
      simp
    obtain ⟨hst, hsu, _, hl⟩ := analyze_2_2_shape env h1 h2
    exact ⟨hst, hsu, by rw [hl, hin]⟩
  · intro env h1 h2 hns h3
    obtain ⟨ai, hai⟩ :=
      Option.isSome_iff_exists.mp (fastAIAnalysis_isSome_of_ne env.scorer hns)
    have hload : env23load env = false := by
      simp [env23load, attemptLoad, loadAttempts_2_3, h3]
    have hcontent : env23content env = "" := by
      simp [env23content, hload]
    have hin : analyze23input env = "Portfolio: " ++ env.url.getD "" := by
      simp [analyze23input, hcontent]
    rw [analyze_2_3_shape env h1 h2 ai hai]
    exact ⟨rfl, rfl, by rw [hin]⟩
  · intro env h1 h2 hns
    have hnull : fastAIAnalysis env.scorer = none := by
      rw [hns]
      rfl
    constructor <;> simp [analyze_2_3, h1, h2, hnull, resp500]

/-- Witness for C3 at a concrete request on which both 2.1 load rungs
    fail: the response is still 200 with the placeholder scorer input. -/
theorem c3_load_failure_still_succeeds_witness :
    (analyze_2_1 ⟨some "https://down.example", true, fun _ => false, true, "ignored", [],
        ScoreCallOutcome.badJson, fun _ => 0⟩).status = 200 ∧
    (analyze_2_1 ⟨some "https://down.example", true, fun _ => false, true, "ignored", [],
        ScoreCallOutcome.badJson, fun _ => 0⟩).llmInput =
      some ("Portfolio URL: " ++ "https://down.example" ++ ". Unable to fully load page content.") := by
  obtain ⟨h1, _, h3⟩ := c3_load_failure_still_succeeds.1
    ⟨some "https://down.example", true, fun _ => false, true, "ignored", [],
      ScoreCallOutcome.badJson, fun _ => 0⟩ (by decide) rfl (fun a => rfl)
  exact ⟨h1, h3⟩

/-- The 2.1 caseStudies array is never empty: either the matching links
    produce entries, or the synthetic homepage entry is substituted. -/
theorem analyze21caseStudies_ne_nil (env : Env21) : analyze21caseStudies env ≠ [] := by
  simp only [analyze21caseStudies]
  split
  · next h =>
    intro hnil
    rw [List.map_eq_nil_iff, List.enum_eq_nil] at hnil
    rw [hnil] at h
    simp at h
  · simp

/-- The 2.2 caseStudies array is never empty. -/
theorem analyze22caseStudies_ne_nil (env : Env22) : analyze22caseStudies env ≠ [] := by
  simp only [analyze22caseStudies]
  split
  · simp
  · next h =>
    intro hnil
    rw [hnil] at h
    simp at h

/-- C2 counterexample: the legacy /analyze variant, on a page whose links
    match no keyword, answers with an empty caseStudies array and a
    message, with no synthetic homepage entry and no score fields at all;
    and the 2.3 emergency default report omits standoutFeature. -/
theorem c2_empty_case_studies_counterexample :
    analyze_legacy ⟨some "https://plain.example", true, fun _ => true,
        ["https://plain.example/about", "https://plain.example/contact"], fun _ => true⟩ =
      ⟨200, some ⟨true, "https://plain.example", [], some "No case study pages found"⟩, none⟩ ∧
    (timeoutReportData "https://plain.example").standoutFeature = none :=
  ⟨rfl, rfl⟩

/-- C2 (amended): for every url-carrying request, the 2.1 and 2.2
    variants answer either with a success report carrying a numeric
    overallScore, all four subscores, a non-empty caseStudies array
    (synthetic homepage entry substituted when no link matches) and a
    populated standoutFeature, or, when the browser machinery throws
    with the 500 error envelope that carries no report fields at all;
    the 2.3 emergency default report has every field except
    standoutFeature, which its literal omits; the legacy variant instead
    answers with an empty caseStudies array and no scores when no link
    matches. -/
theorem c2_report_always_populated :
    (∀ env : Env21, urlFalsy env.url = false → env.browserOk = true →
        (analyze_2_1 env).status = 200 ∧ (analyze_2_1 env).success = true ∧
        ∃ d, (analyze_2_1 env).data = some d ∧
          d.overallScore.isSome = true ∧ d.scores.isSome = true ∧
          d.caseStudies ≠ [] ∧
          d.standoutFeature = some "Professional portfolio design" ∧
          d.interviewReadiness ≠ "")
  ∧ (∀ env : Env22, urlFalsy env.url = false → env.browserOk = true →
        (analyze_2_2 env).success = true ∧
        ∃ d, (analyze_2_2 env).data = some d ∧
          d.overallScore.isSome = true ∧ d.scores.isSome = true ∧
          d.caseStudies ≠ [] ∧ d.standoutFeature.isSome = true)
  ∧ (∀ u : String,
        (timeoutReportData u).overallScore = some 75 ∧
        (timeoutReportData u).scores = some fastScores ∧
        (timeoutReportData u).caseStudies ≠ [] ∧
        (timeoutReportData u).weaknesses ≠ [] ∧
        (timeoutReportData u).interviewReadiness = "Needs review" ∧
        (timeoutReportData u).standoutFeature = none)
  ∧ (∀ env : EnvLegacy, urlFalsy env.url = false → env.launchOk = true →
        envLegacyLoad env = true → (env.links.filter legacyCaseFilter).length = 0 →
        (analyze_legacy env).body =
          some ⟨true, env.url.getD "", [], some "No case study pages found"⟩)
  ∧ (∀ env : Env21, urlFalsy env.url = false → env.browserOk = false →
        (analyze_2_1 env).status = 500 ∧ (analyze_2_1 env).success = false ∧
        (analyze_2_1 env).data = none)
  ∧ (∀ env : Env22, urlFalsy env.url = false → env.browserOk = false →
        (analyze_2_2 env).status = 500 ∧ (analyze_2_2 env).success = false ∧
        (analyze_2_2 env).data = none) := by
  refine ⟨?_, ?_, ?_, ?_, ?_, ?_⟩
  · intro env h1 h2
    rw [analyze_2_1_shape env h1 h2]
    refine ⟨rfl, rfl, _, rfl, rfl, rfl, analyze21caseStudies_ne_nil env, rfl, ?_⟩
    simp only [mkReport21]
    cases hrd : (callOpenAI env.scorer).bind (fun a => a.interviewReadiness) with
    | none => simp [jsOrStr]
    | some s =>
      by_cases hs : s = ""
      · simp [jsOrStr, hs]
      · simp [jsOrStr, hs]
  · intro env h1 h2
    obtain ⟨hst, hsu, hd, _⟩ := analyze_2_2_shape env h1 h2
    exact ⟨hsu, _, hd, rfl, rfl, analyze22caseStudies_ne_nil env, rfl⟩
  · intro u
    exact ⟨rfl, rfl, by simp [timeoutReportData], by simp [timeoutReportData], rfl, rfl⟩
  · intro env h1 h2 h3 h4
    simp [analyze_legacy, h1, h2, h3, h4]
  · intro env h1 h2
    refine ⟨?_, ?_, ?_⟩ <;> simp [analyze_2_1, h1, h2, resp500]
  · intro env h1 h2
    refine ⟨?_, ?_, ?_⟩ <;> simp [analyze_2_2, h1, h2, resp500]

/-- Witness for C2 at a concrete request with no matching links and a
    failed scorer: the 2.1 response is still a fully populated success
    report. -/
theorem c2_report_always_populated_witness :
    (analyze_2_1 ⟨some "https://plain.example", true, fun _ => true, true, "hello there",
        [⟨"https://plain.example/about", "About"⟩], ScoreCallOutcome.noKey,
        fun _ => 0⟩).success = true ∧
    ∃ d, (analyze_2_1 ⟨some "https://plain.example", true, fun _ => true, true, "hello there",
        [⟨"https://plain.example/about", "About"⟩], ScoreCallOutcome.noKey,
        fun _ => 0⟩).data = some d ∧ d.caseStudies ≠ [] := by
  obtain ⟨_, hsu, d, hd, _, _, hcs, _, _⟩ := c2_report_always_populated.1
    ⟨some "https://plain.example", true, fun _ => true, true, "hello there",
      [⟨"https://plain.example/about", "About"⟩], ScoreCallOutcome.noKey, fun _ => 0⟩
    (by decide) rfl
  exact ⟨hsu, d, hd, hcs⟩

/-- C6: at the failing input (a reachable page whose screenshot upload
    reports an error) the legacy /review handler answers 500 before its
    unlink call, leaving one temporary screenshot file on disk, while the
    2.1 /review handler and takeQuickScreenshot always restore the
    on-disk file count, and the legacy handler does so too whenever the
    upload succeeds. -/
theorem c6_temp_file_cleanup :
    (review_legacy ⟨some "https://example.com", some "user@example.com",
        true, true, true, true⟩ 0) = ⟨500, false, some "Upload failed", 1⟩ ∧
    (∀ (env : EnvReview) (files0 : Nat),
        (review_21 env files0).tempFilesLeft = files0) ∧
    (∀ (renderOk uploadErr : Bool) (files0 : Nat),
        (takeQuickScreenshot renderOk uploadErr files0).2 = files0) ∧
    (∀ (env : EnvReview) (files0 : Nat), env.uploadErr = false →
        (review_legacy env files0).tempFilesLeft = files0) := by
  refine ⟨rfl, ?_, ?_, ?_⟩
  · intro env files0
    unfold review_21
    repeat' split
    all_goals simp
  · intro renderOk uploadErr files0
    unfold takeQuickScreenshot
    split
    · rfl
    · simp
  · intro env files0 h
    unfold review_legacy
    repeat' split
    all_goals simp_all

/-- Witness for C6 on the success path of the legacy handler: with the
    upload succeeding, no temporary file remains. -/
theorem c6_temp_file_cleanup_witness :
    (review_legacy ⟨some "https://example.com", some "user@example.com",
        true, true, true, false⟩ 0).tempFilesLeft = 0 :=
  c6_temp_file_cleanup.2.2.2
    ⟨some "https://example.com", some "user@example.com", true, true, true, false⟩ 0 rfl
